import Mathlib

/-!
Verification of the Slot Reservation & Occupancy Reconciliation Engine of the
parking-automation backend.  The definitions below are a shallow embedding of
the Python services in `app/services/booking_service.py`,
`app/services/session_service.py` and
`app/services/computer_vision_services/computer_vision_service.py`, together
with the data model of `app/models`.  Database rows are lists of records,
timestamps are integers (seconds), money and durations are rationals,
SQLAlchemy `query(...).first()` is
`List.find?`, the Redis per-slot lock store is the list of locked slot ids,
and every fallible service call returns its updated state together with an
`Except` carrying the HTTP status code it raises.
-/

namespace Parking

/-- Python enum `BookingStatus` from `booking_model.py`. -/
inductive BookingStatus where
  | initiated
  | locked
  | confirmed
  | expired
  | canceled
deriving DecidableEq, Repr

/-- Python enum `ParkingSessionStatus` from `parking_session_model.py`. -/
inductive SessionStatus where
  | active
  | completed
  | canceled
deriving DecidableEq, Repr

/-- Row of the `vehicles` table (fields used by the services). -/
structure Vehicle where
  id : Nat
  driver_id : Nat
  license_plate : String
deriving DecidableEq, Repr

/-- Row of the `parking_slots` table; `status` is the string enum
`available | occupied | reserved | unavailable`. -/
structure ParkingSlot where
  id : Nat
  parking_lot_id : Nat
  status : String
  last_updated_at : ℤ
deriving DecidableEq, Repr

/-- Row of the `parking_lots` table (fields used by the services);
`open_time`/`close_time` are seconds-of-day. -/
structure ParkingLot where
  id : Nat
  price_per_hour : ℚ
  open_time : Nat
  close_time : Nat
deriving DecidableEq, Repr

/-- Row of the `bookings` table. -/
structure Booking where
  id : Nat
  driver_id : Nat
  license_plate : String
  parking_slot_id : Nat
  parking_lot_id : Nat
  status : BookingStatus
  expires_at : Option ℤ
  confirmed_at : Option ℤ
  canceled_at : Option ℤ
deriving DecidableEq, Repr

/-- Row of the `parking_sessions` table. -/
structure ParkingSession where
  id : Nat
  booking_id : Option Nat
  vehicle_id : Nat
  parking_slot_id : Nat
  parking_lot_id : Nat
  license_plate : String
  start_time : ℤ
  end_time : Option ℤ
  status : SessionStatus
  total_duration_minutes : Option ℚ
  parking_cost : Option ℚ
deriving DecidableEq, Repr

/-- Whole persistent state seen by the services: the database tables, the
Redis lock store (`locks` is the list of slot ids whose `slot:{id}:lock` key
exists), and autoincrement counters for fresh primary keys. -/
structure DBState where
  vehicles : List Vehicle
  slots : List ParkingSlot
  lots : List ParkingLot
  bookings : List Booking
  sessions : List ParkingSession
  locks : List Nat
  next_booking_id : Nat
  next_session_id : Nat
deriving DecidableEq, Repr

/-- Update every booking row with the given primary key (SQLAlchemy mutates
the loaded object in place; keys are unique in any real database state). -/
def updBookings (bs : List Booking) (bid : Nat) (f : Booking → Booking) : List Booking :=
  bs.map (fun b => if b.id = bid then f b else b)

/-- Update every slot row with the given primary key. -/
def updSlots (ss : List ParkingSlot) (sid : Nat) (f : ParkingSlot → ParkingSlot) :
    List ParkingSlot :=
  ss.map (fun s => if s.id = sid then f s else s)

/-- Update every session row with the given primary key. -/
def updSessions (ss : List ParkingSession) (sid : Nat) (f : ParkingSession → ParkingSession) :
    List ParkingSession :=
  ss.map (fun s => if s.id = sid then f s else s)

/-- `BookingService._release_lock`: best-effort delete of the slot's Redis
lock key. -/
def releaseLock (locks : List Nat) (slot_id : Nat) : List Nat :=
  locks.filter (fun k => k != slot_id)

/-! ### Identity normalizer (`session_service.py` top level) -/

/-- ASCII upper-casing of one character, as `str.upper` acts on the ASCII
plate strings this system handles. -/
def py_upper_char (c : Char) : Char :=
  if 'a' ≤ c ∧ c ≤ 'z' then Char.ofNat (c.toNat - 32) else c

/-- Character class `[A-Z0-9]` of the regex in `normalize_license_plate`. -/
def is_plate_char (c : Char) : Bool :=
  (decide ('A' ≤ c) && decide (c ≤ 'Z')) || (decide ('0' ≤ c) && decide (c ≤ '9'))

/-- `normalize_license_plate`: uppercase, then drop every character outside
`[A-Z0-9]` (the `re.sub(r"[^A-Z0-9]", "", plate.upper())` call; an empty
input trivially yields the empty string). -/
def normalize_license_plate (p : String) : String :=
  String.mk ((p.data.map py_upper_char).filter is_plate_char)

/-! ### Levenshtein distance (`session_service.levenshtein_distance`)

The Python function runs a rolling-row dynamic program.  `levRowGo` builds
`current_row` from position `j` on: `last` is `current_row[j]`, the list
argument holds `previous_row[j], previous_row[j+1], …`, and each step appends
`min(previous_row[j+1] + 1, current_row[j] + 1, previous_row[j] + (c1 ≠ c2))`.
-/

def levRowGo (c1 : Char) : List Char → List Nat → Nat → List Nat
  | [], _, last => [last]
  | _ :: _, [], last => [last]
  | _ :: _, [_], last => [last]
  | c2 :: s2, p0 :: p1 :: prev, last =>
      let insertions := p1 + 1
      let deletions := last + 1
      let substitutions := p0 + (if c1 = c2 then 0 else 1)
      last :: levRowGo c1 s2 (p1 :: prev) (min insertions (min deletions substitutions))

/-- Outer loop of the dynamic program: one `levRowGo` row per character of
`s1`, starting from `previous_row = range(len(s2) + 1)`. -/
def levLoop (s2 : List Char) : List Char → List Nat → List Nat
  | [], prev => prev
  | c1 :: s1, prev => levLoop s2 s1 (levRowGo c1 s2 prev (prev.headD 0 + 1))

/-- Body of `levenshtein_distance` once `len(s1) ≥ len(s2)` holds. -/
def levenshtein_core (s1 s2 : List Char) : Nat :=
  if s2.length = 0 then s1.length
  else (levLoop s2 s1 (List.range (s2.length + 1))).getLastD 0

/-- `levenshtein_distance`: the Python entry point swaps its arguments once
when `len(s1) < len(s2)` and then runs the dynamic program. -/
def levenshtein_distance (s1 s2 : String) : Nat :=
  if s1.data.length < s2.data.length then levenshtein_core s2.data s1.data
  else levenshtein_core s1.data s2.data

/-- `fuzzy_match_license_plate`: first an exact lookup of the normalized
detected plate against the stored plate column, then a scan of all vehicles
accepting Levenshtein distance `< 2` between normalized forms. -/
def fuzzy_match_license_plate (detected_plate : String) (vehicles : List Vehicle) :
    Option Vehicle :=
  match vehicles.find? (fun v => v.license_plate == normalize_license_plate detected_plate) with
  | some v => some v
  | none =>
      vehicles.find? (fun v =>
        decide (levenshtein_distance (normalize_license_plate detected_plate)
          (normalize_license_plate v.license_plate) < 2))

/-! ### Session cost (`session_service.calculate_session_cost`) -/

/-- Cost formula of `calculate_session_cost`: round the duration up to whole
30-minute blocks and charge `price_per_hour * (blocks * 30 / 60)`. -/
def session_cost (price_per_hour : ℚ) (duration_minutes : ℚ) : ℚ :=
  let blocks : ℤ := ⌈duration_minutes / 30⌉
  price_per_hour * ((blocks : ℚ) * 30 / 60)

/-- `calculate_session_cost(session_id)`: 404 when the session row is
missing, cost `0` when the lot row is missing, otherwise the block formula
over `(end_time - start_time)/60` minutes (or up to `now` while active). -/
def calculate_session_cost (session_id : Nat) (now : ℤ) (st : DBState) : Except Nat ℚ :=
  match st.sessions.find? (fun s => s.id == session_id) with
  | none => .error 404
  | some s =>
      match st.lots.find? (fun l => l.id == s.parking_lot_id) with
      | none => .ok 0
      | some lot =>
          let duration_minutes :=
            match s.end_time with
            | some e => ((e - s.start_time : ℤ) : ℚ) / 60
            | none => ((now - s.start_time : ℤ) : ℚ) / 60
          .ok (session_cost lot.price_per_hour duration_minutes)

/-- `end_session(session_id, end_time)`: look the session up (404 when
absent), return it unchanged unless it is `active`, otherwise stamp
`end_time`, set `completed`, store `total_duration_minutes =
(end_time - start_time)/60` and the cost computed by
`calculate_session_cost` on the mutated (uncommitted) row. -/
def end_session (session_id : Nat) (end_time : ℤ) (now : ℤ) (st : DBState) :
    DBState × Except Nat ParkingSession :=
  match st.sessions.find? (fun s => s.id == session_id) with
  | none => (st, .error 404)
  | some s =>
      if s.status ≠ SessionStatus.active then (st, .ok s)
      else
        let duration := ((end_time - s.start_time : ℤ) : ℚ) / 60
        let s1 := { s with
          end_time := some end_time
          status := SessionStatus.completed
          total_duration_minutes := some duration }
        -- the SQLAlchemy identity map makes the in-flight mutation visible
        -- to the cost query issued before the commit
        let stMid := { st with sessions := updSessions st.sessions s.id (fun _ => s1) }
        match calculate_session_cost session_id now stMid with
        | .error e => (st, .error e)
        | .ok cost =>
            let s2 := { s1 with parking_cost := some cost }
            ({ st with sessions := updSessions st.sessions s.id (fun _ => s2) }, .ok s2)

/-- `SessionService.detect_license_plate_arrival`: fuzzy-match the detected
plate against the registered vehicles (no match ⇒ nothing is created), load
the slot row (missing ⇒ nothing is created), return any existing `active`
session for the slot unchanged, otherwise create one `active` session whose
`booking_id` is the id of a `confirmed` booking for the normalized plate and
slot when one exists and `null` (walk-in) otherwise. -/
def detect_license_plate_arrival (license_plate : String) (slot_id : Nat)
    (detected_at : ℤ) (st : DBState) : DBState × Option ParkingSession :=
  match fuzzy_match_license_plate license_plate st.vehicles with
  | none => (st, none)
  | some vehicle =>
      match st.slots.find? (fun s => s.id == slot_id) with
      | none => (st, none)
      | some parking_slot =>
          match st.sessions.find? (fun s =>
              s.parking_slot_id == slot_id && s.status == SessionStatus.active) with
          | some existing_session => (st, some existing_session)
          | none =>
              let booking := st.bookings.find? (fun b =>
                b.license_plate == normalize_license_plate license_plate &&
                b.parking_slot_id == slot_id && b.status == BookingStatus.confirmed)
              let session : ParkingSession := {
                id := st.next_session_id
                booking_id := booking.map Booking.id
                vehicle_id := vehicle.id
                parking_slot_id := slot_id
                parking_lot_id := parking_slot.parking_lot_id
                license_plate := normalize_license_plate license_plate
                start_time := detected_at
                end_time := none
                status := SessionStatus.active
                total_duration_minutes := none
                parking_cost := none }
              ({ st with
                  sessions := st.sessions ++ [session]
                  next_session_id := st.next_session_id + 1 }, some session)

/-! ### Booking state machine (`booking_service.py`)

The Redis store is modelled as reachable (`_acquire_lock` returns `False`
exactly when the `slot:{id}:lock` key already exists, `_release_lock`
deletes the key); the fail-open degraded branches therefore do not arise. -/

/-- Statuses `_validate_booking_request` treats as non-terminal when it
checks for a conflicting booking on the slot. -/
def nonTerminal (s : BookingStatus) : Bool :=
  s == BookingStatus.initiated || s == BookingStatus.locked || s == BookingStatus.confirmed

/-- `BookingService._validate_booking_request`, returning either the HTTP
error code it raises or the validated slot/vehicle/lot rows. -/
def validate_booking_request (driver_id : Nat) (license_plate : String)
    (parking_slot_id : Nat) (now_tod : Nat) (st : DBState) :
    Except Nat (ParkingSlot × Vehicle × ParkingLot) :=
  let normalized_plate := normalize_license_plate license_plate
  match st.vehicles.find? (fun v =>
      v.license_plate == normalized_plate && v.driver_id == driver_id) with
  | none => .error 404
  | some vehicle =>
      match st.slots.find? (fun s => s.id == parking_slot_id) with
      | none => .error 404
      | some parking_slot =>
          if ¬ (parking_slot.status = "available" ∨ parking_slot.status = "reserved") then
            .error 400
          else
            match st.lots.find? (fun l => l.id == parking_slot.parking_lot_id) with
            | none => .error 404
            | some parking_lot =>
                if ¬ (parking_lot.open_time ≤ now_tod ∧ now_tod ≤ parking_lot.close_time) then
                  .error 400
                else
                  match st.bookings.find? (fun b =>
                      b.parking_slot_id == parking_slot_id && nonTerminal b.status) with
                  | some _ => .error 409
                  | none => .ok (parking_slot, vehicle, parking_lot)

/-- Lock TTL of `BookingService.__init__` (seconds). -/
def lock_ttl : ℤ := 60

/-- `BookingService.initiate_booking`: acquire the slot lock (409 on
contention), validate, release the lock again on any validation failure, and
otherwise insert an `initiated` booking expiring one TTL from now while the
lock stays held for the confirm step. -/
def initiate_booking (driver_id : Nat) (license_plate : String) (parking_slot_id : Nat)
    (now : ℤ) (now_tod : Nat) (st : DBState) : DBState × Except Nat Booking :=
  if st.locks.contains parking_slot_id then (st, .error 409)
  else
    let st1 := { st with locks := parking_slot_id :: st.locks }
    match validate_booking_request driver_id license_plate parking_slot_id now_tod st1 with
    | .error e => ({ st1 with locks := releaseLock st1.locks parking_slot_id }, .error e)
    | .ok (_, _, parking_lot) =>
        let booking : Booking := {
          id := st1.next_booking_id
          driver_id := driver_id
          license_plate := normalize_license_plate license_plate
          parking_slot_id := parking_slot_id
          parking_lot_id := parking_lot.id
          status := BookingStatus.initiated
          expires_at := some (now + lock_ttl)
          confirmed_at := none
          canceled_at := none }
        ({ st1 with
            bookings := st1.bookings ++ [booking]
            next_booking_id := st1.next_booking_id + 1 }, .ok booking)

/-- `BookingService.confirm_booking`: load the booking for this driver (404),
require a pending status (400), expire it when `expires_at` has passed
(mark `expired`, release the lock, 410), re-load the slot row (404 — note the
source does not release the lock on this path), fail to an unacceptable slot
state (mark `canceled`, release the lock, 400), otherwise confirm the
booking, reserve the slot, and release the lock. -/
def confirm_booking (driver_id : Nat) (booking_id : Nat) (now : ℤ) (st : DBState) :
    DBState × Except Nat Booking :=
  match st.bookings.find? (fun b => b.id == booking_id && b.driver_id == driver_id) with
  | none => (st, .error 404)
  | some booking =>
      if ¬ (booking.status = BookingStatus.initiated ∨ booking.status = BookingStatus.locked) then
        (st, .error 400)
      else
        let lock_expired := match booking.expires_at with
          | some t => decide (t < now)
          | none => false
        if lock_expired then
          ({ st with
              bookings := updBookings st.bookings booking.id
                (fun b => { b with status := BookingStatus.expired })
              locks := releaseLock st.locks booking.parking_slot_id }, .error 410)
        else
          match st.slots.find? (fun s => s.id == booking.parking_slot_id) with
          | none => (st, .error 404)
          | some parking_slot =>
              if ¬ (parking_slot.status = "available" ∨ parking_slot.status = "reserved") then
                ({ st with
                    bookings := updBookings st.bookings booking.id
                      (fun b => { b with status := BookingStatus.canceled })
                    locks := releaseLock st.locks booking.parking_slot_id }, .error 400)
              else
                let confirmed := { booking with
                  status := BookingStatus.confirmed
                  confirmed_at := some now }
                ({ st with
                    bookings := updBookings st.bookings booking.id (fun _ => confirmed)
                    slots := updSlots st.slots parking_slot.id
                      (fun s => { s with status := "reserved", last_updated_at := now })
                    locks := releaseLock st.locks booking.parking_slot_id }, .ok confirmed)

/-- `BookingService.cancel_booking`: load the booking for this driver (404),
return it unchanged when already `expired`/`canceled`, otherwise mark it
`canceled`, revert the slot to `available` when it is currently `reserved`,
and release the lock. -/
def cancel_booking (driver_id : Nat) (booking_id : Nat) (now : ℤ) (st : DBState) :
    DBState × Except Nat Booking :=
  match st.bookings.find? (fun b => b.id == booking_id && b.driver_id == driver_id) with
  | none => (st, .error 404)
  | some booking =>
      if booking.status = BookingStatus.expired ∨ booking.status = BookingStatus.canceled then
        (st, .ok booking)
      else
        let canceled := { booking with
          status := BookingStatus.canceled
          canceled_at := some now }
        let slots1 := match st.slots.find? (fun s => s.id == booking.parking_slot_id) with
          | some s =>
              if s.status = "reserved" then
                updSlots st.slots booking.parking_slot_id
                  (fun x => { x with status := "available", last_updated_at := now })
              else st.slots
          | none => st.slots
        ({ st with
            bookings := updBookings st.bookings booking.id (fun _ => canceled)
            slots := slots1
            locks := releaseLock st.locks booking.parking_slot_id }, .ok canceled)

/-- Filter of the sweep query: pending status and `expires_at < now`
(a SQL comparison, false on NULL). -/
def expiredFilter (now : ℤ) (b : Booking) : Bool :=
  (b.status == BookingStatus.initiated || b.status == BookingStatus.locked) &&
    (match b.expires_at with
     | some t => decide (t < now)
     | none => false)

/-- One iteration of the sweep loop: mark the booking `expired`, revert its
slot to `available` when that slot is currently `reserved`, and delete the
slot's lock key unconditionally. -/
def sweepOne (now : ℤ) (st : DBState) (b : Booking) : DBState :=
  let st1 := { st with
    bookings := updBookings st.bookings b.id
      (fun x => { x with status := BookingStatus.expired }) }
  let st2 := match st1.slots.find? (fun s => s.id == b.parking_slot_id) with
    | some s =>
        if s.status = "reserved" then
          let slots1 := updSlots st1.slots b.parking_slot_id
            (fun x => { x with status := "available", last_updated_at := now })
          { st1 with slots := slots1 }
        else st1
    | none => st1
  { st2 with locks := releaseLock st2.locks b.parking_slot_id }

/-- `BookingService.cleanup_expired_bookings`: query the pending bookings
whose `expires_at` has passed, sweep each in turn, and return how many were
cleaned. -/
def cleanup_expired_bookings (now : ℤ) (st : DBState) : DBState × Nat :=
  let expired_bookings := st.bookings.filter (expiredFilter now)
  (expired_bookings.foldl (sweepOne now) st, expired_bookings.length)

/-- Slot-table component of one sweep iteration (the sweep's
revert-if-reserved update for one slot id). -/
def slotSweep (now : ℤ) (slots : List ParkingSlot) (sid : Nat) : List ParkingSlot :=
  match slots.find? (fun s => s.id == sid) with
  | some s =>
      if s.status = "reserved"
        then updSlots slots sid (fun x => { x with status := "available", last_updated_at := now })
        else slots
  | none => slots

/-- A slot reservation attributable to a given booking.  The only write of
`reserved` into a slot's status is `confirm_booking`, which in the same
transaction sets that booking to `confirmed`; a reservation is therefore due
to booking `b` only if `b` is a confirmed booking of that `reserved` slot. -/
def slotReservedDueTo (st : DBState) (b : Booking) : Prop :=
  b.status = BookingStatus.confirmed ∧
    ∃ s ∈ st.slots, s.id = b.parking_slot_id ∧ s.status = "reserved"

/-- Pending booking of driver 1 on slot 5 that expired at time 10. -/
def sweepB1 : Booking := ⟨1, 1, "ABC123", 5, 1, BookingStatus.initiated, some 10, none, none⟩

/-- Confirmed booking of driver 2 on the same slot 5 (the reservation's
actual owner). -/
def sweepB2 : Booking := ⟨2, 2, "ZZZ999", 5, 1, BookingStatus.confirmed, none, some 5, none⟩

/-- Concrete sweep state: slot 5 is `reserved` (owned by the confirmed
booking `sweepB2`) while the stale pending booking `sweepB1` on the same
slot has passed its expiry. -/
def exStateForeignReservation : DBState :=
  ⟨[⟨1, 1, "ABC123"⟩], [⟨5, 1, "reserved", 0⟩], [⟨1, 10, 0, 86400⟩],
    [sweepB1, sweepB2], [], [5], 3, 1⟩

/-- Concrete state: the slot-5 lock is held (acquired by the initiate step
of booking 1, which is pending and unexpired) but the slot row itself is
missing from the slot table. -/
def exStateLockHeldSlotMissing : DBState :=
  ⟨[⟨1, 1, "ABC123"⟩], [], [⟨1, 10, 0, 86400⟩],
    [⟨1, 1, "ABC123", 5, 1, BookingStatus.initiated, some 100, none, none⟩], [], [5], 2, 1⟩

/-- Concrete state with no registered vehicles (so `initiate_booking`
fails validation with 404). -/
def exStateNoVehicle : DBState :=
  ⟨[], [⟨5, 1, "available", 0⟩], [⟨1, 10, 0, 86400⟩], [], [], [], 1, 1⟩

/-- Concrete state: pending unexpired booking 1 on slot 5 whose slot has
meanwhile become `occupied`, lock still held. -/
def exStateSlotOccupied : DBState :=
  ⟨[⟨1, 1, "ABC123"⟩], [⟨5, 1, "occupied", 0⟩], [⟨1, 10, 0, 86400⟩],
    [⟨1, 1, "ABC123", 5, 1, BookingStatus.initiated, some 100, none, none⟩], [], [5], 2, 1⟩

/-! ### Occupancy reconciler (`computer_vision_service.py`)

`process_slot_frame` is the per-slot state update of
`ComputerVisionService.process_frame` step 5 for one incoming frame: the
frame is abstracted to the list of tracked-vehicle centroids together with
the containment test `inside` (`cv2.pointPolygonTest(...) ≥ 0` against the
slot polygon).  The returned `Option String` is the status published (and
persisted) when `status` moves away from `last_published_status`; drawing is
pure output and is not modelled. -/

/-- `OCCUPIED_FRAME_THRESHOLD` from the module header. -/
def OCCUPIED_FRAME_THRESHOLD : Nat := 3

/-- `EMPTY_FRAME_THRESHOLD` from the module header. -/
def EMPTY_FRAME_THRESHOLD : Nat := 3

/-- `ComputerVisionService.mutable_statuses`. -/
def mutable_statuses : List String := ["available", "occupied"]

/-- Per-slot reconciler state (`self.slots[slot_id]` entries; the
constructor initialises both counters to `0` and both statuses to the
stored slot status). -/
structure SlotState where
  status : String
  last_published_status : String
  occupied_count : Nat
  empty_count : Nat
deriving DecidableEq, Repr

/-- Hysteresis update of step 5 once the frame's occupancy bit is known:
an occupied frame increments `occupied_count` and zeroes `empty_count`,
flipping `status` to `occupied` at the threshold; an empty frame does the
symmetric thing towards `available`. -/
def update_slot_occupancy (occupied : Bool) (s : SlotState) : SlotState :=
  if occupied then
    let s1 := { s with occupied_count := s.occupied_count + 1, empty_count := 0 }
    if s1.status ≠ "occupied" ∧ s1.occupied_count ≥ OCCUPIED_FRAME_THRESHOLD then
      { s1 with status := "occupied" }
    else s1
  else
    let s1 := { s with empty_count := s.empty_count + 1, occupied_count := 0 }
    if s1.status ≠ "available" ∧ s1.empty_count ≥ EMPTY_FRAME_THRESHOLD then
      { s1 with status := "available" }
    else s1

/-- One frame of step 5 for one slot: a slot whose `last_published_status`
is not mutable is skipped entirely; otherwise the occupancy bit is whether
any tracked centroid lies inside the slot polygon, the hysteresis update
runs, and a change of `status` against `last_published_status` is published. -/
def process_slot_frame {α : Type} (inside : α → Bool) (centroids : List α)
    (s : SlotState) : SlotState × Option String :=
  if ¬ (s.last_published_status ∈ mutable_statuses) then (s, none)
  else
    let s1 := update_slot_occupancy (centroids.any inside) s
    if s1.status ≠ s1.last_published_status then
      ({ s1 with last_published_status := s1.status }, some s1.status)
    else (s1, none)

/-- Reconciler state after a sequence of frames for one slot. -/
def run_frames {α : Type} (inside : α → Bool) (frames : List (List α))
    (s : SlotState) : SlotState :=
  frames.foldl (fun s cs => (process_slot_frame inside cs s).1) s

/-- Occupancy bit of each frame of a sequence: whether any tracked centroid
of that frame lies inside the slot polygon. -/
def occupancy_bits {α : Type} (inside : α → Bool) (frames : List (List α)) : List Bool :=
  frames.map (fun cs => cs.any inside)

/-- Length of the trailing run of bits equal to `b` (the number of
consecutive consistent frames ending the sequence). -/
def trailCount (b : Bool) (l : List Bool) : Nat :=
  l.foldl (fun n x => if x = b then n + 1 else 0) 0

/-- Both statuses of a reconciler slot state are vision-mutable (the shape
`__init__` produces for slots created `available` or `occupied`). -/
def mutableInv (s : SlotState) : Prop :=
  s.status ∈ mutable_statuses ∧ s.last_published_status ∈ mutable_statuses

/-- Concrete booking used by several witness states below. -/
def exBookingPending : Booking :=
  ⟨1, 1, "ABC123", 5, 1, BookingStatus.initiated, some 10, none, none⟩

/-- Concrete state: driver 1 holds pending booking 1 on slot 5 (expiring at
time 10) and the slot's lock is held. -/
def exStatePending : DBState :=
  ⟨[⟨1, 1, "ABC123"⟩], [⟨5, 1, "available", 0⟩], [⟨1, 10, 0, 86400⟩],
    [exBookingPending], [], [5], 2, 1⟩

/-- Concrete state: booking 1 of driver 1 is already `expired`. -/
def exStateExpired : DBState :=
  ⟨[⟨1, 1, "ABC123"⟩], [⟨5, 1, "available", 0⟩], [⟨1, 10, 0, 86400⟩],
    [⟨1, 1, "ABC123", 5, 1, BookingStatus.expired, some 10, none, none⟩], [], [], 2, 1⟩

/-- Concrete state with one active session on slot 5 started at time 1000,
price 10 per hour. -/
def exStateActiveSession : DBState :=
  ⟨[⟨1, 1, "ABC123"⟩], [⟨5, 1, "available", 0⟩], [⟨1, 10, 0, 86400⟩], [],
    [⟨1, some 1, 1, 5, 1, "ABC123", 1000, none, SessionStatus.active, none, none⟩], [], 2, 2⟩

/-! ### General helper lemmas -/

theorem releaseLock_not_mem (l : List Nat) (sid : Nat) : sid ∉ releaseLock l sid := by
  simp [releaseLock]

theorem updBookings_id_status (bs : List Booking) (bid : Nat) (st : BookingStatus)
    (x : Booking) (hx : x ∈ updBookings bs bid (fun b => { b with status := st }))
    (hid : x.id = bid) : x.status = st := by
  simp only [updBookings, List.mem_map] at hx
  obtain ⟨b, _, rfl⟩ := hx
  by_cases h : b.id = bid
  · simp [h]
  · simp only [if_neg h] at hid ⊢
    exact absurd hid h

/-! ### Claim theorems -/

/-- C2.  For every booking in status `initiated` or `locked` whose
`expires_at` lies in the past at the time of the call, `confirm_booking`
fails with `410 Gone`, sets the booking's status to `expired` (never to
`confirmed`), releases the slot's lock, and leaves the slot table
unchanged. -/
theorem confirm_booking_expired_gone (st : DBState) (did bid : Nat) (now t : ℤ) (b : Booking)
    (hfind : st.bookings.find? (fun x => x.id == bid && x.driver_id == did) = some b)
    (hstatus : b.status = BookingStatus.initiated ∨ b.status = BookingStatus.locked)
    (hexp : b.expires_at = some t) (hlt : t < now) :
    confirm_booking did bid now st =
      ({ st with
          bookings := updBookings st.bookings b.id
            (fun x => { x with status := BookingStatus.expired })
          locks := releaseLock st.locks b.parking_slot_id }, Except.error 410) ∧
    (∀ x ∈ (confirm_booking did bid now st).1.bookings,
        x.id = b.id → x.status = BookingStatus.expired ∧ x.status ≠ BookingStatus.confirmed) ∧
    b.parking_slot_id ∉ (confirm_booking did bid now st).1.locks ∧
    (confirm_booking did bid now st).1.slots = st.slots := by
  have hmain : confirm_booking did bid now st =
      ({ st with
          bookings := updBookings st.bookings b.id
            (fun x => { x with status := BookingStatus.expired })
          locks := releaseLock st.locks b.parking_slot_id }, Except.error 410) := by
    unfold confirm_booking
    rw [hfind]
    rcases hstatus with h | h <;> simp [h, hexp, hlt]
  refine ⟨hmain, ?_, ?_, ?_⟩
  · intro x hx hid
    rw [hmain] at hx
    exact ⟨updBookings_id_status _ _ _ _ hx hid, by
      rw [updBookings_id_status _ _ _ _ hx hid]; intro hc; cases hc⟩
  · rw [hmain]
    exact releaseLock_not_mem _ _
  · rw [hmain]

/-- C9.  `cancel_booking` on a booking that is already `expired` or
`canceled` is an idempotent no-op: it returns the booking unchanged,
raises no error, and leaves the whole state (booking rows, slot rows,
locks) exactly as it was. -/
theorem cancel_booking_terminal_idempotent (st : DBState) (did bid : Nat) (now : ℤ)
    (b : Booking)
    (hfind : st.bookings.find? (fun x => x.id == bid && x.driver_id == did) = some b)
    (hstatus : b.status = BookingStatus.expired ∨ b.status = BookingStatus.canceled) :
    cancel_booking did bid now st = (st, Except.ok b) := by
  unfold cancel_booking
  rw [hfind]
  rcases hstatus with h | h <;> simp [h]

/-- Witness for C2 at a concrete expired pending booking. -/
theorem confirm_booking_expired_gone_witness :
    confirm_booking 1 1 20 exStatePending =
      ({ exStatePending with
          bookings := updBookings exStatePending.bookings exBookingPending.id
            (fun x => { x with status := BookingStatus.expired })
          locks := releaseLock exStatePending.locks exBookingPending.parking_slot_id },
        Except.error 410) ∧
    (∀ x ∈ (confirm_booking 1 1 20 exStatePending).1.bookings,
        x.id = exBookingPending.id →
          x.status = BookingStatus.expired ∧ x.status ≠ BookingStatus.confirmed) ∧
    exBookingPending.parking_slot_id ∉ (confirm_booking 1 1 20 exStatePending).1.locks ∧
    (confirm_booking 1 1 20 exStatePending).1.slots = exStatePending.slots :=
  confirm_booking_expired_gone exStatePending 1 1 20 10 exBookingPending rfl
    (Or.inl rfl) rfl (by decide)

/-- Witness for C9 at a concrete already-expired booking. -/
theorem cancel_booking_terminal_idempotent_witness :
    cancel_booking 1 1 99 exStateExpired =
      (exStateExpired, Except.ok ⟨1, 1, "ABC123", 5, 1, BookingStatus.expired, some 10, none, none⟩) :=
  cancel_booking_terminal_idempotent exStateExpired 1 1 99 _ rfl (Or.inl rfl)

theorem find?_updSessions_const (ss : List ParkingSession) (s s1 : ParkingSession) (sid : Nat)
    (h : ss.find? (fun x => x.id == sid) = some s) (hid : s1.id = s.id) :
    (updSessions ss s.id (fun _ => s1)).find? (fun x => x.id == sid) = some s1 := by
  have hsid : s.id = sid := by simpa using List.find?_some h
  induction ss with
  | nil => simp at h
  | cons a tl ih =>
      rw [List.find?_cons] at h
      by_cases ha : (a.id == sid) = true
      · rw [ha] at h
        have haeq : a = s := by simpa using h
        have : a.id = s.id := by rw [haeq]
        simp [updSessions, this, List.find?_cons, hid, hsid]
      · rw [Bool.not_eq_true] at ha
        rw [ha] at h
        have hane : ¬ a.id = s.id := by
          rw [hsid]
          simpa using ha
        have := ih h
        simp only [updSessions, List.map_cons, if_neg hane, List.find?_cons, ha] at this ⊢
        exact this

/-- Helper: evaluation of `calculate_session_cost` when the session and lot
rows are found and the session already carries an `end_time`. -/
theorem calculate_session_cost_eq (st : DBState) (sid : Nat) (now : ℤ)
    (s : ParkingSession) (lot : ParkingLot) (e : ℤ)
    (hs : st.sessions.find? (fun x => x.id == sid) = some s)
    (hlot : st.lots.find? (fun l => l.id == s.parking_lot_id) = some lot)
    (he : s.end_time = some e) :
    calculate_session_cost sid now st =
      Except.ok (session_cost lot.price_per_hour (((e - s.start_time : ℤ) : ℚ) / 60)) := by
  unfold calculate_session_cost
  rw [hs]
  dsimp only
  rw [hlot]
  dsimp only
  rw [he]

/-- C4.  Ending an active session charges
`price_per_hour * (blocks * 30 / 60)` with `blocks = ⌈duration/30⌉` over
`total_duration_minutes = (end_time - start_time)/60`, and in particular 1,
30, 31, 60 and 61 minutes at price 10/hour cost 5, 5, 10, 10, 15. -/
theorem end_session_cost_ceiling_blocks (st : DBState) (sid : Nat) (s : ParkingSession)
    (lot : ParkingLot) (end_time now : ℤ)
    (hs : st.sessions.find? (fun x => x.id == sid) = some s)
    (hactive : s.status = SessionStatus.active)
    (hlot : st.lots.find? (fun l => l.id == s.parking_lot_id) = some lot) :
    (∃ s2, (end_session sid end_time now st).2 = Except.ok s2 ∧
        s2.total_duration_minutes = some (((end_time - s.start_time : ℤ) : ℚ) / 60) ∧
        s2.parking_cost = some (lot.price_per_hour *
          ((⌈(((end_time - s.start_time : ℤ) : ℚ) / 60) / 30⌉ : ℚ) * 30 / 60)) ∧
        s2.status = SessionStatus.completed ∧ s2.end_time = some end_time) ∧
    session_cost 10 1 = 5 ∧ session_cost 10 30 = 5 ∧ session_cost 10 31 = 10 ∧
    session_cost 10 60 = 10 ∧ session_cost 10 61 = 15 := by
  constructor
  · have hcost := calculate_session_cost_eq
      { st with sessions := updSessions st.sessions s.id (fun _ =>
          { s with
            end_time := some end_time
            status := SessionStatus.completed
            total_duration_minutes := some (((end_time - s.start_time : ℤ) : ℚ) / 60) }) }
      sid now
      { s with
        end_time := some end_time
        status := SessionStatus.completed
        total_duration_minutes := some (((end_time - s.start_time : ℤ) : ℚ) / 60) }
      lot end_time (find?_updSessions_const st.sessions s _ sid hs rfl) hlot rfl
    refine ⟨{ s with
        end_time := some end_time
        status := SessionStatus.completed
        total_duration_minutes := some (((end_time - s.start_time : ℤ) : ℚ) / 60)
        parking_cost := some (session_cost lot.price_per_hour
          (((end_time - s.start_time : ℤ) : ℚ) / 60)) }, ?_, rfl, ?_, rfl, rfl⟩
    · unfold end_session
      rw [hs]
      dsimp only
      simp only [hactive, ne_eq, not_true_eq_false, if_false, ite_false]
      rw [hcost]
    · simp [session_cost]
  · have c1 : (⌈(1 : ℚ) / 30⌉ : ℤ) = 1 := by rw [Int.ceil_eq_iff] ; constructor <;> norm_num
    have c30 : (⌈(30 : ℚ) / 30⌉ : ℤ) = 1 := by rw [Int.ceil_eq_iff] ; constructor <;> norm_num
    have c31 : (⌈(31 : ℚ) / 30⌉ : ℤ) = 2 := by rw [Int.ceil_eq_iff] ; constructor <;> norm_num
    have c60 : (⌈(60 : ℚ) / 30⌉ : ℤ) = 2 := by rw [Int.ceil_eq_iff] ; constructor <;> norm_num
    have c61 : (⌈(61 : ℚ) / 30⌉ : ℤ) = 3 := by rw [Int.ceil_eq_iff] ; constructor <;> norm_num
    refine ⟨?_, ?_, ?_, ?_, ?_⟩ <;> simp only [session_cost]
    · rw [c1] ; norm_num
    · rw [c30] ; norm_num
    · rw [c31] ; norm_num
    · rw [c60] ; norm_num
    · rw [c61] ; norm_num

/-- Witness for C4: ending the concrete session 45 minutes in. -/
theorem end_session_cost_ceiling_blocks_witness :
    (∃ s2, (end_session 1 3700 0 exStateActiveSession).2 = Except.ok s2 ∧
        s2.total_duration_minutes = some (((3700 - 1000 : ℤ) : ℚ) / 60) ∧
        s2.parking_cost = some ((10 : ℚ) *
          ((⌈(((3700 - 1000 : ℤ) : ℚ) / 60) / 30⌉ : ℚ) * 30 / 60)) ∧
        s2.status = SessionStatus.completed ∧ s2.end_time = some 3700) ∧
    session_cost 10 1 = 5 ∧ session_cost 10 30 = 5 ∧ session_cost 10 31 = 10 ∧
    session_cost 10 60 = 10 ∧ session_cost 10 61 = 15 :=
  end_session_cost_ceiling_blocks exStateActiveSession 1
    ⟨1, some 1, 1, 5, 1, "ABC123", 1000, none, SessionStatus.active, none, none⟩
    ⟨1, 10, 0, 86400⟩ 3700 0 rfl rfl rfl

/-- C10.  A session closed with `end_time = start_time` yields
`⌈0/30⌉ = 0` blocks, so `end_session` records duration 0 and cost 0: no
minimum one-block charge exists at duration zero. -/
theorem end_session_zero_duration_zero_cost :
    (⌈(0 : ℚ) / 30⌉ : ℤ) = 0 ∧
    ∃ s, (end_session 1 1000 0 exStateActiveSession).2 = Except.ok s ∧
      s.total_duration_minutes = some 0 ∧ s.parking_cost = some 0 ∧
      s.status = SessionStatus.completed := by
  refine ⟨by norm_num, _, rfl, ?_, ?_, rfl⟩
  · simp
  · simp [session_cost]

/-- C8.  Fuzzy plate matching succeeds iff some vehicle's stored plate is
the normalized detected plate or lies at Levenshtein distance `< 2` from it
(so distance 0 or 1 matches, distance ≥ 2 never does); in particular
`"ABC123"` matches `"ABC124"` (distance 1) but not `"ABD124"`
(distance 2). -/
theorem fuzzy_match_edit_distance :
    (∀ (d : String) (vs : List Vehicle),
        (fuzzy_match_license_plate d vs).isSome = true ↔
          ∃ v ∈ vs, v.license_plate = normalize_license_plate d ∨
            levenshtein_distance (normalize_license_plate d)
              (normalize_license_plate v.license_plate) < 2) ∧
    levenshtein_distance "ABC123" "ABC124" = 1 ∧
    levenshtein_distance "ABC123" "ABD124" = 2 ∧
    (fuzzy_match_license_plate "ABC123" [⟨1, 1, "ABC124"⟩]).isSome = true ∧
    fuzzy_match_license_plate "ABC123" [⟨1, 1, "ABD124"⟩] = none := by
  refine ⟨?_, by decide, by decide, by decide, by decide⟩
  intro d vs
  unfold fuzzy_match_license_plate
  cases hex : vs.find? (fun v => v.license_plate == normalize_license_plate d) with
  | some v =>
      simp only [Option.isSome_some, true_iff]
      refine ⟨v, List.mem_of_find?_eq_some hex, Or.inl ?_⟩
      simpa using List.find?_some hex
  | none =>
      have hno := List.find?_eq_none.mp hex
      rw [List.find?_isSome]
      constructor
      · rintro ⟨x, hx, hp⟩
        exact ⟨x, hx, Or.inr (by simpa using hp)⟩
      · rintro ⟨v, hv, hcase | hcase⟩
        · exact absurd (by simp [hcase]) (hno v hv)
        · exact ⟨v, hv, by simpa using hcase⟩

/-- Status written by one hysteresis update: the old status, `occupied`,
or `available` — never anything else. -/
theorem update_slot_occupancy_status (b : Bool) (s : SlotState) :
    (update_slot_occupancy b s).status = s.status ∨
    (update_slot_occupancy b s).status = "occupied" ∨
    (update_slot_occupancy b s).status = "available" := by
  unfold update_slot_occupancy
  cases b <;> dsimp only <;> split_ifs <;> simp

/-- C5.  A slot whose `last_published_status` is `reserved` or `unavailable`
is returned untouched by `process_slot_frame` with nothing published, and
the reconciler never writes `reserved`/`unavailable` into a slot's status:
any written status is `occupied` or `available`. -/
theorem reconciler_reserved_unavailable_immune :
    (∀ (α : Type) (inside : α → Bool) (cs : List α) (s : SlotState),
        s.last_published_status = "reserved" ∨ s.last_published_status = "unavailable" →
        process_slot_frame inside cs s = (s, none)) ∧
    (∀ (α : Type) (inside : α → Bool) (cs : List α) (s : SlotState),
        (process_slot_frame inside cs s).1.status = s.status ∨
        (process_slot_frame inside cs s).1.status = "occupied" ∨
        (process_slot_frame inside cs s).1.status = "available") := by
  constructor
  · intro α inside cs s h
    rcases h with h | h <;> simp [process_slot_frame, mutable_statuses, h]
  · intro α inside cs s
    unfold process_slot_frame
    by_cases hm : s.last_published_status ∈ mutable_statuses
    · rw [if_neg (not_not_intro hm)]
      have := update_slot_occupancy_status (cs.any inside) s
      dsimp only
      split_ifs <;> simpa using this
    · rw [if_pos hm]
      left
      rfl

/-- Witness for C5: a `reserved` slot is skipped, and an `unavailable` slot
is skipped, on a concrete single-centroid frame. -/
theorem reconciler_reserved_unavailable_immune_witness :
    process_slot_frame (fun b : Bool => b) [true] ⟨"reserved", "reserved", 0, 0⟩ =
      (⟨"reserved", "reserved", 0, 0⟩, none) ∧
    process_slot_frame (fun b : Bool => b) [true] ⟨"unavailable", "unavailable", 0, 0⟩ =
      (⟨"unavailable", "unavailable", 0, 0⟩, none) :=
  ⟨reconciler_reserved_unavailable_immune.1 Bool (fun b => b) [true]
      ⟨"reserved", "reserved", 0, 0⟩ (Or.inl rfl),
    reconciler_reserved_unavailable_immune.1 Bool (fun b => b) [true]
      ⟨"unavailable", "unavailable", 0, 0⟩ (Or.inr rfl)⟩

/-- Field-level description of an occupied-frame hysteresis update. -/
theorem update_slot_occupancy_lps (b : Bool) (s : SlotState) :
    (update_slot_occupancy b s).last_published_status = s.last_published_status := by
  unfold update_slot_occupancy
  cases b <;> dsimp only <;> split_ifs <;> rfl

/-- Field-level description of an occupied-frame hysteresis update. -/
theorem update_slot_occupancy_true (s : SlotState) :
    update_slot_occupancy true s =
      { s with
        occupied_count := s.occupied_count + 1
        empty_count := 0
        status := if s.status ≠ "occupied" ∧ s.occupied_count + 1 ≥ OCCUPIED_FRAME_THRESHOLD
          then "occupied" else s.status } := by
  show (if (true : Bool) then _ else _) = _
  rw [if_pos (by trivial)]
  dsimp only
  split_ifs <;> rfl

/-- Field-level description of an empty-frame hysteresis update. -/
theorem update_slot_occupancy_false (s : SlotState) :
    update_slot_occupancy false s =
      { s with
        empty_count := s.empty_count + 1
        occupied_count := 0
        status := if s.status ≠ "available" ∧ s.empty_count + 1 ≥ EMPTY_FRAME_THRESHOLD
          then "available" else s.status } := by
  show (if (false : Bool) then _ else _) = _
  rw [if_neg (by simp)]
  dsimp only
  split_ifs <;> rfl

/-- On a mutable slot the publish wrapper of `process_slot_frame` changes
only `last_published_status`; status and both counters agree with the
hysteresis update. -/
theorem process_slot_frame_step {α : Type} (inside : α → Bool) (cs : List α) (s : SlotState)
    (hm : s.last_published_status ∈ mutable_statuses) :
    (process_slot_frame inside cs s).1.status =
      (update_slot_occupancy (cs.any inside) s).status ∧
    (process_slot_frame inside cs s).1.occupied_count =
      (update_slot_occupancy (cs.any inside) s).occupied_count ∧
    (process_slot_frame inside cs s).1.empty_count =
      (update_slot_occupancy (cs.any inside) s).empty_count := by
  unfold process_slot_frame
  rw [if_neg (not_not_intro hm)]
  dsimp only
  split_ifs <;> exact ⟨rfl, rfl, rfl⟩

theorem mem_mutable_of_status {x : String} (s : SlotState)
    (hx : x = s.status ∨ x = "occupied" ∨ x = "available")
    (hs : s.status ∈ mutable_statuses) : x ∈ mutable_statuses := by
  rcases hx with h | h | h <;> subst h
  · exact hs
  · simp [mutable_statuses]
  · simp [mutable_statuses]

/-- One reconciler step preserves vision-mutability of both statuses. -/
theorem mutableInv_step {α : Type} (inside : α → Bool) (cs : List α) (s : SlotState)
    (h : mutableInv s) : mutableInv ((process_slot_frame inside cs s).1) := by
  obtain ⟨h1, h2⟩ := h
  have hstatus : (update_slot_occupancy (cs.any inside) s).status ∈ mutable_statuses :=
    mem_mutable_of_status s (update_slot_occupancy_status (cs.any inside) s) h1
  unfold mutableInv process_slot_frame
  rw [if_neg (not_not_intro h2)]
  dsimp only
  split_ifs with hch
  · exact ⟨hstatus, hstatus⟩
  · exact ⟨hstatus, by rw [update_slot_occupancy_lps]; exact h2⟩

/-- Counters of a hysteresis update as a function of the occupancy bit. -/
theorem update_slot_occupancy_counts (b : Bool) (s : SlotState) :
    (update_slot_occupancy b s).occupied_count = (if b = true then s.occupied_count + 1 else 0) ∧
    (update_slot_occupancy b s).empty_count = (if b = false then s.empty_count + 1 else 0) := by
  cases b
  · rw [update_slot_occupancy_false]
    exact ⟨rfl, rfl⟩
  · rw [update_slot_occupancy_true]
    exact ⟨rfl, rfl⟩

/-- Running the reconciler keeps mutability, and the two hysteresis counters
compute the obvious increment-or-reset folds over the frame bits. -/
theorem run_frames_counters {α : Type} (inside : α → Bool) :
    ∀ (fs : List (List α)) (s0 : SlotState), mutableInv s0 →
      mutableInv (run_frames inside fs s0) ∧
      (run_frames inside fs s0).occupied_count =
        (occupancy_bits inside fs).foldl
          (fun n x => if x = true then n + 1 else 0) s0.occupied_count ∧
      (run_frames inside fs s0).empty_count =
        (occupancy_bits inside fs).foldl
          (fun n x => if x = false then n + 1 else 0) s0.empty_count := by
  intro fs
  induction fs with
  | nil => exact fun s0 h => ⟨h, rfl, rfl⟩
  | cons cs fs ih =>
      intro s0 h
      have hstep := process_slot_frame_step inside cs s0 h.2
      have hinv := mutableInv_step inside cs s0 h
      have hcnt := update_slot_occupancy_counts (cs.any inside) s0
      have hrun : run_frames inside (cs :: fs) s0 =
          run_frames inside fs ((process_slot_frame inside cs s0).1) := rfl
      obtain ⟨ih1, ih2, ih3⟩ := ih ((process_slot_frame inside cs s0).1) hinv
      have hbits : occupancy_bits inside (cs :: fs) =
          (cs.any inside) :: occupancy_bits inside fs := rfl
      refine ⟨hrun ▸ ih1, ?_, ?_⟩
      · rw [hrun, ih2, hstep.2.1, hcnt.1, hbits, List.foldl_cons]
      · rw [hrun, ih3, hstep.2.2, hcnt.2, hbits, List.foldl_cons]

theorem trailCount_append (b x : Bool) (l : List Bool) :
    trailCount b (l ++ [x]) = if x = b then trailCount b l + 1 else 0 := by
  simp [trailCount, List.foldl_append]

theorem trailCount_le_length (b : Bool) (l : List Bool) : trailCount b l ≤ l.length := by
  induction l using List.reverseRecOn with
  | nil => simp [trailCount]
  | append_singleton l x ih =>
      rw [trailCount_append]
      split_ifs
      · simp only [List.length_append, List.length_cons, List.length_nil]
        omega
      · simp

/-- The trailing `trailCount b l` frames of a sequence all carry bit `b`. -/
theorem trailCount_suffix (b : Bool) (l : List Bool) :
    ((l.drop (l.length - trailCount b l)).all (fun x => x == b)) = true := by
  induction l using List.reverseRecOn with
  | nil => simp
  | append_singleton l x ih =>
      rw [trailCount_append]
      by_cases hx : x = b
      · rw [if_pos hx]
        have hle : trailCount b l ≤ l.length := trailCount_le_length b l
        have hlen : (l ++ [x]).length = l.length + 1 := by simp
        rw [hlen]
        have hsub : l.length + 1 - (trailCount b l + 1) = l.length - trailCount b l := by omega
        rw [hsub, List.drop_append_of_le_length (by omega)]
        simp only [List.all_append, ih, Bool.and_eq_true, List.all_cons, List.all_nil]
        simp [hx]
      · rw [if_neg hx]
        simp

/-- C3.  Per-slot hysteresis of the occupancy reconciler: an occupied frame
increments `occupied_count` and resets `empty_count` (symmetrically for an
empty frame), the status flips to `occupied`/`available` exactly at the
3-frame thresholds, a single contrary frame amid a streak leaves the status
unchanged, and along any frame sequence from a freshly initialised slot a
status change implies the trailing run of consistent frames has length at
least 3 (and a trailing run consists of consistent frames only). -/
theorem occupancy_hysteresis_three_frames :
    (∀ (α : Type) (inside : α → Bool) (cs : List α) (s : SlotState),
        s.last_published_status ∈ mutable_statuses → cs.any inside = true →
        (process_slot_frame inside cs s).1.occupied_count = s.occupied_count + 1 ∧
        (process_slot_frame inside cs s).1.empty_count = 0 ∧
        (process_slot_frame inside cs s).1.status =
          (if s.status ≠ "occupied" ∧ s.occupied_count + 1 ≥ OCCUPIED_FRAME_THRESHOLD
            then "occupied" else s.status)) ∧
    (∀ (α : Type) (inside : α → Bool) (cs : List α) (s : SlotState),
        s.last_published_status ∈ mutable_statuses → cs.any inside = false →
        (process_slot_frame inside cs s).1.empty_count = s.empty_count + 1 ∧
        (process_slot_frame inside cs s).1.occupied_count = 0 ∧
        (process_slot_frame inside cs s).1.status =
          (if s.status ≠ "available" ∧ s.empty_count + 1 ≥ EMPTY_FRAME_THRESHOLD
            then "available" else s.status)) ∧
    (∀ (α : Type) (inside : α → Bool) (cs : List α) (s : SlotState),
        s.last_published_status ∈ mutable_statuses →
        (cs.any inside = false → s.empty_count = 0 →
          (process_slot_frame inside cs s).1.status = s.status) ∧
        (cs.any inside = true → s.occupied_count = 0 →
          (process_slot_frame inside cs s).1.status = s.status)) ∧
    (∀ (α : Type) (inside : α → Bool) (frames : List (List α)) (cs : List α) (s0 : SlotState),
        mutableInv s0 → s0.occupied_count = 0 → s0.empty_count = 0 →
        (process_slot_frame inside cs (run_frames inside frames s0)).1.status ≠
          (run_frames inside frames s0).status →
        3 ≤ trailCount (cs.any inside) (occupancy_bits inside (frames ++ [cs]))) ∧
    (∀ (b : Bool) (l : List Bool),
        ((l.drop (l.length - trailCount b l)).all (fun x => x == b)) = true) := by
  have hocc : ∀ (α : Type) (inside : α → Bool) (cs : List α) (s : SlotState),
      s.last_published_status ∈ mutable_statuses → cs.any inside = true →
      (process_slot_frame inside cs s).1.occupied_count = s.occupied_count + 1 ∧
      (process_slot_frame inside cs s).1.empty_count = 0 ∧
      (process_slot_frame inside cs s).1.status =
        (if s.status ≠ "occupied" ∧ s.occupied_count + 1 ≥ OCCUPIED_FRAME_THRESHOLD
          then "occupied" else s.status) := by
    intro α inside cs s hm hb
    have hstep := process_slot_frame_step inside cs s hm
    rw [hb] at hstep
    rw [hstep.1, hstep.2.1, hstep.2.2, update_slot_occupancy_true]
    exact ⟨rfl, rfl, rfl⟩
  have hemp : ∀ (α : Type) (inside : α → Bool) (cs : List α) (s : SlotState),
      s.last_published_status ∈ mutable_statuses → cs.any inside = false →
      (process_slot_frame inside cs s).1.empty_count = s.empty_count + 1 ∧
      (process_slot_frame inside cs s).1.occupied_count = 0 ∧
      (process_slot_frame inside cs s).1.status =
        (if s.status ≠ "available" ∧ s.empty_count + 1 ≥ EMPTY_FRAME_THRESHOLD
          then "available" else s.status) := by
    intro α inside cs s hm hb
    have hstep := process_slot_frame_step inside cs s hm
    rw [hb] at hstep
    rw [hstep.1, hstep.2.1, hstep.2.2, update_slot_occupancy_false]
    exact ⟨rfl, rfl, rfl⟩
  refine ⟨hocc, hemp, ?_, ?_, trailCount_suffix⟩
  · intro α inside cs s hm
    constructor
    · intro hb he
      rw [(hemp α inside cs s hm hb).2.2, he]
      simp [EMPTY_FRAME_THRESHOLD]
    · intro hb ho
      rw [(hocc α inside cs s hm hb).2.2, ho]
      simp [OCCUPIED_FRAME_THRESHOLD]
  · intro α inside frames cs s0 hinv h0o h0e hne
    obtain ⟨hrinv, hoc, hec⟩ := run_frames_counters inside frames s0 hinv
    rw [h0o] at hoc
    rw [h0e] at hec
    have hbits : occupancy_bits inside (frames ++ [cs]) =
        occupancy_bits inside frames ++ [cs.any inside] := by
      simp [occupancy_bits]
    cases hb : cs.any inside
    · rw [(hemp α inside cs _ hrinv.2 hb).2.2] at hne
      by_cases hcond : (run_frames inside frames s0).status ≠ "available" ∧
          (run_frames inside frames s0).empty_count + 1 ≥ EMPTY_FRAME_THRESHOLD
      · have h2 : (run_frames inside frames s0).empty_count ≥ 2 := by
          have := hcond.2
          simp only [EMPTY_FRAME_THRESHOLD] at this
          omega
        rw [hbits, hb, trailCount_append, if_pos rfl]
        have : trailCount false (occupancy_bits inside frames) =
            (run_frames inside frames s0).empty_count := hec.symm
        omega
      · rw [if_neg hcond] at hne
        exact absurd rfl hne
    · rw [(hocc α inside cs _ hrinv.2 hb).2.2] at hne
      by_cases hcond : (run_frames inside frames s0).status ≠ "occupied" ∧
          (run_frames inside frames s0).occupied_count + 1 ≥ OCCUPIED_FRAME_THRESHOLD
      · have h2 : (run_frames inside frames s0).occupied_count ≥ 2 := by
          have := hcond.2
          simp only [OCCUPIED_FRAME_THRESHOLD] at this
          omega
        rw [hbits, hb, trailCount_append, if_pos rfl]
        have : trailCount true (occupancy_bits inside frames) =
            (run_frames inside frames s0).occupied_count := hoc.symm
        omega
      · rw [if_neg hcond] at hne
        exact absurd rfl hne

/-- Witness for C3: the single-contrary-frame part on a concrete occupied
slot, and the streak part on a concrete three-frame occupied run. -/
theorem occupancy_hysteresis_three_frames_witness :
    (process_slot_frame (fun b : Bool => b) [false] ⟨"occupied", "occupied", 5, 0⟩).1.status
      = "occupied" ∧
    3 ≤ trailCount ([true].any (fun b : Bool => b))
        (occupancy_bits (fun b : Bool => b) ([[true], [true]] ++ [[true]])) := by
  constructor
  · exact (occupancy_hysteresis_three_frames.2.2.1 Bool (fun b => b) [false]
      ⟨"occupied", "occupied", 5, 0⟩ (by decide)).1 rfl rfl
  · exact occupancy_hysteresis_three_frames.2.2.2.1 Bool (fun b => b) [[true], [true]] [true]
      ⟨"available", "available", 0, 0⟩ ⟨by decide, by decide⟩ rfl rfl (by decide)

/-- C7.  Arrival detection: an existing active session for the slot makes
the call an idempotent no-op; an unmatched plate creates nothing; otherwise
exactly one new `active` session is appended whose `start_time` is the
observation instant and whose `booking_id` is the id of a confirmed booking
for the normalized plate and slot when one exists, `none` (walk-in)
otherwise. -/
theorem detect_arrival_session_creation :
    (∀ (plate : String) (sid : Nat) (t : ℤ) (st : DBState) (ex : ParkingSession),
        st.sessions.find? (fun s => s.parking_slot_id == sid && s.status == SessionStatus.active)
          = some ex →
        (detect_license_plate_arrival plate sid t st).1 = st) ∧
    (∀ (plate : String) (sid : Nat) (t : ℤ) (st : DBState),
        fuzzy_match_license_plate plate st.vehicles = none →
        detect_license_plate_arrival plate sid t st = (st, none)) ∧
    (∀ (plate : String) (sid : Nat) (t : ℤ) (st : DBState) (v : Vehicle) (slot : ParkingSlot),
        fuzzy_match_license_plate plate st.vehicles = some v →
        st.slots.find? (fun s => s.id == sid) = some slot →
        st.sessions.find? (fun s => s.parking_slot_id == sid && s.status == SessionStatus.active)
          = none →
        ∃ sess, detect_license_plate_arrival plate sid t st =
            ({ st with
                sessions := st.sessions ++ [sess]
                next_session_id := st.next_session_id + 1 }, some sess) ∧
          sess.start_time = t ∧ sess.status = SessionStatus.active ∧
          sess.vehicle_id = v.id ∧ sess.parking_slot_id = sid ∧
          sess.booking_id = (st.bookings.find? (fun b =>
            b.license_plate == normalize_license_plate plate &&
            b.parking_slot_id == sid && b.status == BookingStatus.confirmed)).map Booking.id ∧
          ((st.bookings.find? (fun b =>
              b.license_plate == normalize_license_plate plate &&
              b.parking_slot_id == sid && b.status == BookingStatus.confirmed)).isSome ↔
            ∃ b ∈ st.bookings, b.license_plate = normalize_license_plate plate ∧
              b.parking_slot_id = sid ∧ b.status = BookingStatus.confirmed)) := by
  refine ⟨?_, ?_, ?_⟩
  · intro plate sid t st ex hex
    unfold detect_license_plate_arrival
    cases hfz : fuzzy_match_license_plate plate st.vehicles with
    | none => rfl
    | some v =>
        dsimp only
        cases hsl : st.slots.find? (fun s => s.id == sid) with
        | none => rfl
        | some slot =>
            dsimp only
            rw [hex]
  · intro plate sid t st hfz
    unfold detect_license_plate_arrival
    rw [hfz]
  · intro plate sid t st v slot hfz hsl hsess
    refine ⟨{
        id := st.next_session_id
        booking_id := (st.bookings.find? (fun b =>
          b.license_plate == normalize_license_plate plate &&
          b.parking_slot_id == sid && b.status == BookingStatus.confirmed)).map Booking.id
        vehicle_id := v.id
        parking_slot_id := sid
        parking_lot_id := slot.parking_lot_id
        license_plate := normalize_license_plate plate
        start_time := t
        end_time := none
        status := SessionStatus.active
        total_duration_minutes := none
        parking_cost := none }, ?_, rfl, rfl, rfl, rfl, rfl, ?_⟩
    · unfold detect_license_plate_arrival
      rw [hfz]
      dsimp only
      rw [hsl]
      dsimp only
      rw [hsess]
    · rw [List.find?_isSome]
      constructor
      · rintro ⟨b, hb, hp⟩
        simp only [Bool.and_eq_true, beq_iff_eq] at hp
        exact ⟨b, hb, hp.1.1, hp.1.2, hp.2⟩
      · rintro ⟨b, hb, h1, h2, h3⟩
        exact ⟨b, hb, by simp [h1, h2, h3]⟩

/-- Concrete state with a registered vehicle, an available slot 5 and one
confirmed booking for plate ABC123 on slot 5, but no session yet. -/
def exStateConfirmedBooking : DBState :=
  ⟨[⟨1, 1, "ABC123"⟩], [⟨5, 1, "available", 0⟩], [⟨1, 10, 0, 86400⟩],
    [⟨1, 1, "ABC123", 5, 1, BookingStatus.confirmed, none, some 5, none⟩], [], [], 2, 1⟩

/-- Witness for C7: the no-op branch on a state holding an active session,
and the creation branch on a concrete arrival of the booked plate. -/
theorem detect_arrival_session_creation_witness :
    (detect_license_plate_arrival "ABC123" 5 2000 exStateActiveSession).1
        = exStateActiveSession ∧
    ∃ sess, detect_license_plate_arrival "ABC 123" 5 1000 exStateConfirmedBooking =
        ({ exStateConfirmedBooking with
            sessions := exStateConfirmedBooking.sessions ++ [sess]
            next_session_id := exStateConfirmedBooking.next_session_id + 1 }, some sess) ∧
      sess.start_time = 1000 ∧ sess.status = SessionStatus.active ∧
      sess.vehicle_id = 1 ∧ sess.parking_slot_id = 5 ∧
      sess.booking_id = (exStateConfirmedBooking.bookings.find? (fun b =>
        b.license_plate == normalize_license_plate "ABC 123" &&
        b.parking_slot_id == 5 && b.status == BookingStatus.confirmed)).map Booking.id ∧
      ((exStateConfirmedBooking.bookings.find? (fun b =>
          b.license_plate == normalize_license_plate "ABC 123" &&
          b.parking_slot_id == 5 && b.status == BookingStatus.confirmed)).isSome ↔
        ∃ b ∈ exStateConfirmedBooking.bookings,
          b.license_plate = normalize_license_plate "ABC 123" ∧
          b.parking_slot_id = 5 ∧ b.status = BookingStatus.confirmed) :=
  ⟨detect_arrival_session_creation.1 "ABC123" 5 2000 exStateActiveSession
      ⟨1, some 1, 1, 5, 1, "ABC123", 1000, none, SessionStatus.active, none, none⟩ rfl,
    detect_arrival_session_creation.2.2 "ABC 123" 5 1000 exStateConfirmedBooking
      ⟨1, 1, "ABC123"⟩ ⟨5, 1, "available", 0⟩ rfl rfl rfl⟩

/-- C1 counterexample.  The claim is false on the code: in a state where the
slot-5 lock is held for the pending booking of driver 1 but the slot row is
missing, `confirm_booking` propagates its 404 error with the slot's lock
still in the lock store — the slot-row-missing error path of the source
contains no `_release_lock` call. -/
theorem confirm_booking_slot_missing_keeps_lock :
    exStateLockHeldSlotMissing.locks = [5] ∧
    exStateLockHeldSlotMissing.bookings.map Booking.parking_slot_id = [5] ∧
    (confirm_booking 1 1 50 exStateLockHeldSlotMissing).2 = Except.error 404 ∧
    (confirm_booking 1 1 50 exStateLockHeldSlotMissing).1.locks = [5] :=
  ⟨rfl, rfl, rfl, rfl⟩

/-- C1 amended.  Every `initiate_booking` error path after a successful lock
acquisition releases the lock before propagating; `confirm_booking` releases
the lock on its expiry (410) and slot-no-longer-available (400) error paths —
but (per the counterexample) not on its booking-not-found, invalid-status or
slot-row-missing paths. -/
theorem booking_lock_release_on_error :
    (∀ (did : Nat) (plate : String) (sid : Nat) (now : ℤ) (tod : Nat) (st : DBState) (e : Nat),
        sid ∉ st.locks →
        (initiate_booking did plate sid now tod st).2 = Except.error e →
        sid ∉ (initiate_booking did plate sid now tod st).1.locks) ∧
    (∀ (st : DBState) (did bid : Nat) (now t : ℤ) (b : Booking),
        st.bookings.find? (fun x => x.id == bid && x.driver_id == did) = some b →
        (b.status = BookingStatus.initiated ∨ b.status = BookingStatus.locked) →
        b.expires_at = some t → t < now →
        (confirm_booking did bid now st).2 = Except.error 410 ∧
        b.parking_slot_id ∉ (confirm_booking did bid now st).1.locks) ∧
    (∀ (st : DBState) (did bid : Nat) (now : ℤ) (b : Booking) (slot : ParkingSlot),
        st.bookings.find? (fun x => x.id == bid && x.driver_id == did) = some b →
        (b.status = BookingStatus.initiated ∨ b.status = BookingStatus.locked) →
        (∀ t, b.expires_at = some t → ¬ t < now) →
        st.slots.find? (fun s => s.id == b.parking_slot_id) = some slot →
        ¬ (slot.status = "available" ∨ slot.status = "reserved") →
        (confirm_booking did bid now st).2 = Except.error 400 ∧
        b.parking_slot_id ∉ (confirm_booking did bid now st).1.locks) := by
  refine ⟨?_, ?_, ?_⟩
  · intro did plate sid now tod st e hmem herr
    unfold initiate_booking at herr ⊢
    rw [if_neg (by simpa using hmem)] at herr ⊢
    dsimp only at herr ⊢
    cases hv : validate_booking_request did plate sid tod
        { st with locks := sid :: st.locks } with
    | error e2 =>
        dsimp only
        exact releaseLock_not_mem _ _
    | ok triple =>
        obtain ⟨s1, v1, l1⟩ := triple
        rw [hv] at herr
        dsimp only at herr
        exact Except.noConfusion herr
  · intro st did bid now t b hfind hstatus hexp hlt
    have hmain : confirm_booking did bid now st =
        ({ st with
            bookings := updBookings st.bookings b.id
              (fun x => { x with status := BookingStatus.expired })
            locks := releaseLock st.locks b.parking_slot_id }, Except.error 410) := by
      unfold confirm_booking
      rw [hfind]
      rcases hstatus with h | h <;> simp [h, hexp, hlt]
    rw [hmain]
    exact ⟨rfl, releaseLock_not_mem _ _⟩
  · intro st did bid now b slot hfind hstatus hnexp hslot hbad
    have hmain : confirm_booking did bid now st =
        ({ st with
            bookings := updBookings st.bookings b.id
              (fun x => { x with status := BookingStatus.canceled })
            locks := releaseLock st.locks b.parking_slot_id }, Except.error 400) := by
      unfold confirm_booking
      rw [hfind]
      have hexpf : (match b.expires_at with
          | some t => decide (t < now)
          | none => false) = false := by
        cases he : b.expires_at with
        | none => rfl
        | some t2 => simpa using hnexp t2 he
      rcases hstatus with h | h <;> simp [h, hexpf, hslot, hbad]
    rw [hmain]
    exact ⟨rfl, releaseLock_not_mem _ _⟩

/-- Witness for C1 (amended): a failed validation at `initiate_booking`
leaves no lock behind; a concrete expired confirm releases the lock with
410; a concrete confirm against an `occupied` slot releases the lock
with 400. -/
theorem booking_lock_release_on_error_witness :
    (5 ∉ (initiate_booking 1 "ABC123" 5 0 3600 exStateNoVehicle).1.locks) ∧
    ((confirm_booking 1 1 20 exStatePending).2 = Except.error 410 ∧
      5 ∉ (confirm_booking 1 1 20 exStatePending).1.locks) ∧
    ((confirm_booking 1 1 50 exStateSlotOccupied).2 = Except.error 400 ∧
      5 ∉ (confirm_booking 1 1 50 exStateSlotOccupied).1.locks) :=
  ⟨booking_lock_release_on_error.1 1 "ABC123" 5 0 3600 exStateNoVehicle 404
      (by decide) rfl,
    booking_lock_release_on_error.2.1 exStatePending 1 1 20 10 exBookingPending
      rfl (Or.inl rfl) rfl (by decide),
    booking_lock_release_on_error.2.2 exStateSlotOccupied 1 1 50
      ⟨1, 1, "ABC123", 5, 1, BookingStatus.initiated, some 100, none, none⟩
      ⟨5, 1, "occupied", 0⟩ rfl (Or.inl rfl)
      (by intro t ht; simp only [Option.some.injEq] at ht; omega)
      rfl (by decide)⟩

theorem sweepOne_fields (now : ℤ) (st : DBState) (b : Booking) :
    (sweepOne now st b).bookings =
      updBookings st.bookings b.id (fun x => { x with status := BookingStatus.expired }) ∧
    (sweepOne now st b).slots = slotSweep now st.slots b.parking_slot_id ∧
    (sweepOne now st b).locks = releaseLock st.locks b.parking_slot_id ∧
    (sweepOne now st b).vehicles = st.vehicles ∧
    (sweepOne now st b).lots = st.lots ∧
    (sweepOne now st b).sessions = st.sessions ∧
    (sweepOne now st b).next_booking_id = st.next_booking_id ∧
    (sweepOne now st b).next_session_id = st.next_session_id := by
  unfold sweepOne slotSweep
  dsimp only
  cases h : st.slots.find? (fun s => s.id == b.parking_slot_id) with
  | none => exact ⟨rfl, rfl, rfl, rfl, rfl, rfl, rfl, rfl⟩
  | some s =>
      dsimp only
      split_ifs with hs <;> exact ⟨rfl, rfl, rfl, rfl, rfl, rfl, rfl, rfl⟩

/-- The sweep loop acts independently on the booking table, the slot table
and the lock store, and touches nothing else. -/
theorem foldl_sweepOne_proj (now : ℤ) :
    ∀ (L : List Booking) (st : DBState),
      (L.foldl (sweepOne now) st).bookings =
        L.foldl (fun bs b => updBookings bs b.id
          (fun x => { x with status := BookingStatus.expired })) st.bookings ∧
      (L.foldl (sweepOne now) st).slots =
        L.foldl (fun ss b => slotSweep now ss b.parking_slot_id) st.slots ∧
      (L.foldl (sweepOne now) st).locks =
        L.foldl (fun lk b => releaseLock lk b.parking_slot_id) st.locks ∧
      (L.foldl (sweepOne now) st).vehicles = st.vehicles ∧
      (L.foldl (sweepOne now) st).lots = st.lots ∧
      (L.foldl (sweepOne now) st).sessions = st.sessions ∧
      (L.foldl (sweepOne now) st).next_booking_id = st.next_booking_id ∧
      (L.foldl (sweepOne now) st).next_session_id = st.next_session_id := by
  intro L
  induction L with
  | nil => exact fun st => ⟨rfl, rfl, rfl, rfl, rfl, rfl, rfl, rfl⟩
  | cons b L ih =>
      intro st
      have hs := sweepOne_fields now st b
      obtain ⟨i1, i2, i3, i4, i5, i6, i7, i8⟩ := ih (sweepOne now st b)
      refine ⟨?_, ?_, ?_, ?_, ?_, ?_, ?_, ?_⟩ <;> simp only [List.foldl_cons]
      · rw [i1, hs.1]
      · rw [i2, hs.2.1]
      · rw [i3, hs.2.2.1]
      · rw [i4, hs.2.2.2.1]
      · rw [i5, hs.2.2.2.2.1]
      · rw [i6, hs.2.2.2.2.2.1]
      · rw [i7, hs.2.2.2.2.2.2.1]
      · rw [i8, hs.2.2.2.2.2.2.2]

/-- Iterating the booking-expiry update over a list of bookings expires
exactly the rows whose primary key occurs in the list. -/
theorem foldl_updBookings_expire :
    ∀ (L : List Booking) (bs : List Booking),
      L.foldl (fun acc b => updBookings acc b.id
        (fun x => { x with status := BookingStatus.expired })) bs =
      bs.map (fun x => if x.id ∈ L.map Booking.id
        then { x with status := BookingStatus.expired } else x) := by
  intro L
  induction L with
  | nil =>
      intro bs
      simp
  | cons b L ih =>
      intro bs
      rw [List.foldl_cons, ih]
      unfold updBookings
      rw [List.map_map]
      apply List.map_congr_left
      intro x _
      by_cases hxb : x.id = b.id <;>
        by_cases hxL : x.id ∈ L.map Booking.id <;>
          simp [Function.comp, hxb, hxL]

/-- Iterating the lock release over a list of bookings deletes exactly the
lock keys of the listed slots. -/
theorem foldl_releaseLock_bookings :
    ∀ (L : List Booking) (locks : List Nat),
      L.foldl (fun lk b => releaseLock lk b.parking_slot_id) locks =
      locks.filter (fun k => decide (k ∉ L.map Booking.parking_slot_id)) := by
  intro L
  induction L with
  | nil =>
      intro locks
      simp
  | cons b L ih =>
      intro locks
      rw [List.foldl_cons, ih]
      unfold releaseLock
      rw [List.filter_filter]
      congr 1
      funext k
      by_cases h1 : k = b.parking_slot_id <;>
        by_cases h2 : k ∈ L.map Booking.parking_slot_id <;> simp [h1, h2]

theorem slotSweep_ids (now : ℤ) (slots : List ParkingSlot) (sid : Nat) :
    (slotSweep now slots sid).map ParkingSlot.id = slots.map ParkingSlot.id := by
  unfold slotSweep
  cases h : slots.find? (fun s => s.id == sid) with
  | none => rfl
  | some s =>
      dsimp only
      split_ifs with hs
      · unfold updSlots
        rw [List.map_map]
        apply List.map_congr_left
        intro x _
        by_cases hx : x.id = sid <;> simp [Function.comp, hx]
      · rfl

/-- Iterating the sweep's revert-if-reserved update over a list of slot ids
reverts exactly the currently `reserved` slots whose id is listed (slot
primary keys assumed distinct). -/
theorem foldl_slotSweep (now : ℤ) :
    ∀ (sids : List Nat) (slots : List ParkingSlot),
      (slots.map ParkingSlot.id).Nodup →
      sids.foldl (slotSweep now) slots =
        slots.map (fun s => if s.id ∈ sids ∧ s.status = "reserved"
          then { s with status := "available", last_updated_at := now } else s) := by
  intro sids
  induction sids with
  | nil =>
      intro slots _
      simp
  | cons sid sids ih =>
      intro slots hnd
      rw [List.foldl_cons, ih _ (by rw [slotSweep_ids]; exact hnd)]
      unfold slotSweep
      cases hfind : slots.find? (fun s => s.id == sid) with
      | none =>
          dsimp only
          have hno : ∀ s ∈ slots, ¬ s.id = sid := by
            intro s hs
            simpa using List.find?_eq_none.mp hfind s hs
          apply List.map_congr_left
          intro s hs
          by_cases hres : s.status = "reserved" <;>
            simp [List.mem_cons, hno s hs, hres]
      | some s0 =>
          have hs0mem := List.mem_of_find?_eq_some hfind
          have hs0id : s0.id = sid := by simpa using List.find?_some hfind
          have huniq : ∀ s ∈ slots, s.id = sid → s = s0 := fun s hs hid =>
            List.inj_on_of_nodup_map hnd hs hs0mem (by rw [hid, hs0id])
          dsimp only
          split_ifs with hres
          · unfold updSlots
            rw [List.map_map]
            apply List.map_congr_left
            intro s hs
            by_cases hid : s.id = sid
            · have hseq : s = s0 := huniq s hs hid
              subst hseq
              simp [Function.comp, hid, hres, List.mem_cons]
            · simp [Function.comp, hid, List.mem_cons]
          · apply List.map_congr_left
            intro s hs
            by_cases hid : s.id = sid
            · have hseq : s = s0 := huniq s hs hid
              subst hseq
              simp [hid, hres, List.mem_cons]
            · by_cases hres2 : s.status = "reserved" <;>
                simp [hid, hres2, List.mem_cons]

/-- C6 amended.  With distinct primary keys, the expiry sweep expires
exactly the pending bookings whose `expires_at` has passed, returns their
count, deletes exactly their slots' lock keys, and reverts a slot to
`available` exactly when it is currently `reserved` and is the slot of some
swept booking — regardless of which booking caused the reservation; all
other rows and tables are untouched. -/
theorem cleanup_expired_bookings_spec (now : ℤ) (st : DBState)
    (hbk : (st.bookings.map Booking.id).Nodup)
    (hsl : (st.slots.map ParkingSlot.id).Nodup) :
    (cleanup_expired_bookings now st).2 =
      (st.bookings.filter (expiredFilter now)).length ∧
    (cleanup_expired_bookings now st).1.bookings =
      st.bookings.map (fun b => if expiredFilter now b
        then { b with status := BookingStatus.expired } else b) ∧
    (cleanup_expired_bookings now st).1.slots =
      st.slots.map (fun s =>
        if s.id ∈ (st.bookings.filter (expiredFilter now)).map Booking.parking_slot_id ∧
            s.status = "reserved"
          then { s with status := "available", last_updated_at := now } else s) ∧
    (cleanup_expired_bookings now st).1.locks =
      st.locks.filter (fun k =>
        decide (k ∉ (st.bookings.filter (expiredFilter now)).map Booking.parking_slot_id)) ∧
    (cleanup_expired_bookings now st).1.vehicles = st.vehicles ∧
    (cleanup_expired_bookings now st).1.lots = st.lots ∧
    (cleanup_expired_bookings now st).1.sessions = st.sessions := by
  have hproj := foldl_sweepOne_proj now (st.bookings.filter (expiredFilter now)) st
  refine ⟨rfl, ?_, ?_, ?_, hproj.2.2.2.1, hproj.2.2.2.2.1, hproj.2.2.2.2.2.1⟩
  · show ((st.bookings.filter (expiredFilter now)).foldl (sweepOne now) st).bookings = _
    rw [hproj.1, foldl_updBookings_expire]
    apply List.map_congr_left
    intro b hb
    by_cases hp : expiredFilter now b
    · have hmem : b.id ∈ (st.bookings.filter (expiredFilter now)).map Booking.id :=
        List.mem_map_of_mem _ (List.mem_filter.mpr ⟨hb, hp⟩)
      simp [hmem, hp]
    · have hmem : b.id ∉ (st.bookings.filter (expiredFilter now)).map Booking.id := by
        intro hmem
        obtain ⟨b2, hb2, hid⟩ := List.mem_map.mp hmem
        obtain ⟨hb2mem, hb2p⟩ := List.mem_filter.mp hb2
        have hbeq : b2 = b := List.inj_on_of_nodup_map hbk hb2mem hb hid
        rw [hbeq] at hb2p
        exact absurd hb2p (by simpa using hp)
      simp [hmem, hp]
  · show ((st.bookings.filter (expiredFilter now)).foldl (sweepOne now) st).slots = _
    rw [hproj.2.1, ← List.foldl_map, foldl_slotSweep now _ _ hsl]
  · show ((st.bookings.filter (expiredFilter now)).foldl (sweepOne now) st).locks = _
    rw [hproj.2.2.1, foldl_releaseLock_bookings]

/-- C6 counterexample.  The claim's "reverts the slot's status to available
only if the slot was reserved due to that booking" is false on the code: in
`exStateForeignReservation` the only swept booking is the pending `sweepB1`
(to which no reservation is attributable — it was never confirmed), the
slot-5 reservation being due to the distinct confirmed booking `sweepB2`;
the sweep nevertheless flips slot 5 to `available` (also touching the slot
of the untouched booking `sweepB2`, against "leaves all other bookings and
their slots untouched"). -/
theorem cleanup_reverts_foreign_reservation :
    exStateForeignReservation.bookings.filter (expiredFilter 20) = [sweepB1] ∧
    ¬ slotReservedDueTo exStateForeignReservation sweepB1 ∧
    slotReservedDueTo exStateForeignReservation sweepB2 ∧
    (cleanup_expired_bookings 20 exStateForeignReservation).1.slots.map ParkingSlot.status
      = ["available"] ∧
    (cleanup_expired_bookings 20 exStateForeignReservation).1.bookings.map Booking.status
      = [BookingStatus.expired, BookingStatus.confirmed] := by
  refine ⟨rfl, ?_, ?_, rfl, rfl⟩
  · intro h
    exact absurd h.1 (by decide)
  · exact ⟨rfl, ⟨5, 1, "reserved", 0⟩, by simp [exStateForeignReservation], rfl, rfl⟩

/-- Witness for C6 (amended) at the concrete sweep state. -/
theorem cleanup_expired_bookings_spec_witness :
    (cleanup_expired_bookings 20 exStateForeignReservation).2 =
      (exStateForeignReservation.bookings.filter (expiredFilter 20)).length ∧
    (cleanup_expired_bookings 20 exStateForeignReservation).1.bookings =
      exStateForeignReservation.bookings.map (fun b => if expiredFilter 20 b
        then { b with status := BookingStatus.expired } else b) ∧
    (cleanup_expired_bookings 20 exStateForeignReservation).1.slots =
      exStateForeignReservation.slots.map (fun s =>
        if s.id ∈ (exStateForeignReservation.bookings.filter
              (expiredFilter 20)).map Booking.parking_slot_id ∧
            s.status = "reserved"
          then { s with status := "available", last_updated_at := 20 } else s) ∧
    (cleanup_expired_bookings 20 exStateForeignReservation).1.locks =
      exStateForeignReservation.locks.filter (fun k =>
        decide (k ∉ (exStateForeignReservation.bookings.filter
          (expiredFilter 20)).map Booking.parking_slot_id)) ∧
    (cleanup_expired_bookings 20 exStateForeignReservation).1.vehicles =
      exStateForeignReservation.vehicles ∧
    (cleanup_expired_bookings 20 exStateForeignReservation).1.lots =
      exStateForeignReservation.lots ∧
    (cleanup_expired_bookings 20 exStateForeignReservation).1.sessions =
      exStateForeignReservation.sessions :=
  cleanup_expired_bookings_spec 20 exStateForeignReservation (by decide) (by decide)

end Parking
